import Mathlib

/-!
# Coffee Shop API — verification of the drinks endpoints and auth guard

Shallow embedding of `src/backend/src/api.py` (Flask route handlers and
error handlers) together with the auth layer described by the spec
(`auth/auth.py` and `database/models.py` are not shipped under `src/`,
so those parts are modelled from the spec, marked as such below).

Modelling conventions:
  * JSON values are the inductive `JVal`; a Flask `jsonify(...), status`
    response is a `Response` (status code + JSON body).
  * The database is a `List Drink` in insertion order;
    `Drink.query.order_by(Drink.id).all()` is `sortById`.
  * The `recipe` column stores JSON text (`json.dumps` at write,
    `json.loads` at read). Since dumps/loads cancel, the model keeps the
    parsed `JVal` in the record and keeps `json.dumps` (`dumps` below)
    for the Python truthiness checks the handlers perform on the text.
  * A handler is a function from the store (plus an `ok` flag standing
    for success of the persistence call wrapped in `try/except`) to a
    `Response` paired with the resulting store.
  * Python truthiness of an optional string (`if new_title:`) is
    `pyTruthy`: `None` and `""` are falsy, everything else truthy.
-/

/-- A JSON value. -/
inductive JVal where
  | null
  | bool (b : Bool)
  | num (n : Int)
  | str (s : String)
  | arr (xs : List JVal)
  | obj (fs : List (String × JVal))
  deriving Repr

/- `json.dumps` of Python's standard library, on JSON values
(default separators). Only its output text matters to the handlers,
which test the text for truthiness (non-emptiness). -/
mutual

def dumps : JVal → String
  | .null => "null"
  | .bool true => "true"
  | .bool false => "false"
  | .num n => toString n
  | .str s => "\x22" ++ s ++ "\x22"
  | .arr xs => "[" ++ String.intercalate ", " (dumpsList xs) ++ "]"
  | .obj fs => "\x7b" ++ String.intercalate ", " (dumpsObj fs) ++ "\x7d"

def dumpsList : List JVal → List String
  | [] => []
  | v :: vs => dumps v :: dumpsList vs

def dumpsObj : List (String × JVal) → List String
  | [] => []
  | (k, v) :: fs => ("\x22" ++ k ++ "\x22: " ++ dumps v) :: dumpsObj fs

end

/-- A drink row: id, title and the (parsed) recipe column. -/
structure Drink where
  id : Nat
  title : String
  recipe : JVal
  deriving Repr

/-- An HTTP response: status code and JSON body. -/
structure Response where
  status : Nat
  body : JVal
  deriving Repr

/-- Python truthiness of `body.get(key, None)` for a string-valued key:
`None` is falsy, a string is truthy iff non-empty. -/
def pyTruthy : Option String → Bool
  | none => false
  | some s => s != ""

/-- The relation `Drink.id ≤ Drink.id` used by `order_by(Drink.id)`. -/
def leById (a b : Drink) : Prop := a.id ≤ b.id

instance : DecidableRel leById := fun a b => Nat.decLe a.id b.id

instance : IsTotal Drink leById := ⟨fun a b => Nat.le_total a.id b.id⟩

instance : IsTrans Drink leById := ⟨fun _ _ _ => Nat.le_trans⟩

/-- The query `Drink.query.order_by(Drink.id).all()`: the store sorted by id. -/
def sortById (s : List Drink) : List Drink := List.insertionSort leById s

example : sortById [⟨2, "b", .null⟩, ⟨1, "a", .null⟩] = [⟨1, "a", .null⟩, ⟨2, "b", .null⟩] := rfl
example : dumps .null = "null" := rfl
example : dumps (.arr [.num 1, .str "x"]) = "[1, \x22x\x22]" := rfl

/-- Strip the quantity field from one ingredient object. -/
def stripParts : JVal → JVal
  | .obj fs => .obj (fs.filter (fun kv => kv.1 != "parts"))
  | v => v

/-- Modelled from the spec: `database/models.py` is not under `src/`.
§3 — the short view is the public projection of a drink, omitting the
quantities (`parts`) from each recipe ingredient. -/
def Drink.short (d : Drink) : JVal :=
  .obj [("id", .num d.id), ("title", .str d.title),
        ("recipe", match d.recipe with
                   | .arr xs => .arr (xs.map stripParts)
                   | v => v)]

/-- Modelled from the spec: `database/models.py` is not under `src/`.
§3 — the long view is the privileged projection, including the full
recipe with quantities (§8: the long view includes `parts`). -/
def Drink.long (d : Drink) : JVal :=
  .obj [("id", .num d.id), ("title", .str d.title), ("recipe", d.recipe)]

/-- The routes of `api.py`. -/
inductive Route where
  | getDrinks
  | getDrinksDetail
  | postDrinks
  | patchDrinks
  | deleteDrinks
  deriving DecidableEq, Repr

/-- The permission each route's `@requires_auth(...)` decorator demands in
`api.py`; `GET /drinks` carries no decorator, hence no permission. -/
def requiredPermission : Route → Option String
  | .getDrinks => none
  | .getDrinksDetail => some "get:drinks-detail"
  | .postDrinks => some "post:drinks"
  | .patchDrinks => some "patch:drinks"
  | .deleteDrinks => some "delete:drinks"

/- ## Error handlers of `api.py` (lines 200-258) -/

/-- Handler `@app.errorhandler(422)` of api.py. -/
def unprocessable : Response :=
  ⟨422, .obj [("success", .bool false), ("error", .num 422),
              ("message", .str "unprocessable")]⟩

/-- Handler `@app.errorhandler(404)` of api.py. -/
def not_found : Response :=
  ⟨404, .obj [("success", .bool false), ("error", .num 404),
              ("message", .str "resource not found")]⟩

/-- The structured auth failure raised by the guard: `AuthError` carries an
`error` dict (code and human description) and an HTTP status code. -/
structure AuthError where
  code : String
  description : String
  status_code : Nat
  deriving Repr

/-- Handler `@app.errorhandler(AuthError)` (api.py lines 216-222): converts an auth
failure into the uniform JSON error body at the boundary. -/
def auth_error (e : AuthError) : Response :=
  ⟨e.status_code, .obj [("success", .bool false), ("error", .num e.status_code),
                        ("message", .str e.description)]⟩

/-- Handler `@app.errorhandler(401)` of api.py. -/
def unauthorized : Response :=
  ⟨401, .obj [("success", .bool false), ("error", .num 401),
              ("message", .str "Unauthorized")]⟩

/-- Handler `@app.errorhandler(500)` of api.py. -/
def internal_server_error : Response :=
  ⟨500, .obj [("success", .bool false), ("error", .num 500),
              ("message", .str "Internal Server Error")]⟩

/-- Handler `@app.errorhandler(400)` of api.py. -/
def bad_request : Response :=
  ⟨400, .obj [("success", .bool false), ("error", .num 400),
              ("message", .str "Bad Request")]⟩

/-- Handler `@app.errorhandler(405)` of api.py. -/
def method_not_allowed : Response :=
  ⟨405, .obj [("success", .bool false), ("error", .num 405),
              ("message", .str "Method Not Allowed")]⟩

/- ## Route handlers of `api.py` -/

/-- Route `GET /drinks` (api.py lines 36-44): public; queries the store ordered by
id, short-projects each drink, returns 200. The store is returned unchanged —
the handler only queries. -/
def get_drinks (s : List Drink) : Response × List Drink :=
  (⟨200, .obj [("success", .bool true),
               ("drinks", .arr ((sortById s).map Drink.short))]⟩, s)

/-- Route `GET /drinks-detail` (api.py lines 58-67): body of the handler, reached
once `@requires_auth("get:drinks-detail")` has admitted the request. -/
def get_drink_detail (s : List Drink) : Response × List Drink :=
  (⟨200, .obj [("success", .bool true),
               ("drinks", .arr ((sortById s).map Drink.long))]⟩, s)

/-- A PATCH body: which of the two keys are present (`body.get(k, None)`
yields `none` for an absent key; `title` is a JSON string, `recipe` any
JSON value). -/
structure PatchBody where
  title : Option String
  recipe : Option JVal

/-- SQLAlchemy row mutation + `update()`: the matched row is replaced in
place, every other row untouched. -/
def replaceById (s : List Drink) (i : Nat) (d : Drink) : List Drink :=
  s.map (fun x => if x.id == i then d else x)

/-- Route `PATCH /drinks/<id>` (api.py lines 137-159). `ok` is success of the
persistence calls inside the `try` block (`except` aborts 400).
Faithful to the source:
  * `new_title  = body.get('title', None)`
  * `new_recipe = json.dumps(body.get('recipe', None))` — note the dumps is
    applied *before* the truthiness test, so `new_recipe` is the serialized
    text (`"null"` when the key is absent);
  * `if new_title: drink.title = new_title`
  * `if new_recipe: drink.recipe = new_recipe` — the stored column receives
    the text, which the views read back through `json.loads`; the model
    stores the parsed value `body.recipe.getD .null` directly. -/
def update_drink (ok : Bool) (s : List Drink) (i : Nat) (b : PatchBody) :
    Response × List Drink :=
  match s.find? (fun d => d.id == i) with
  | none => (not_found, s)
  | some drink =>
      if ok then
        let new_title : Option String := b.title
        let new_recipe : String := dumps (b.recipe.getD .null)
        let d1 := if pyTruthy new_title then { drink with title := new_title.getD "" }
                  else drink
        let d2 := if new_recipe != "" then { d1 with recipe := b.recipe.getD .null }
                  else d1
        (⟨200, .obj [("success", .bool true), ("drinks", .arr [d2.long])]⟩,
         replaceById s i d2)
      else (bad_request, s)

/-- Route `DELETE /drinks/<id>` (api.py lines 181-195). `ok` is success of
`drink.delete()` inside the `try` block (`except` aborts 400). -/
def delete_drink (ok : Bool) (s : List Drink) (i : Nat) :
    Response × List Drink :=
  match s.find? (fun d => d.id == i) with
  | none => (not_found, s)
  | some _ =>
      if ok then
        (⟨200, .obj [("success", .bool true), ("delete", .num i)]⟩,
         s.filter (fun d => !(d.id == i)))
      else (bad_request, s)

/- ## Auth layer (permission checker and guard)

`auth/auth.py` is not under `src/`; the claims that concern it are settled
against a model built from the spec (§4.2, §4.3, §7), as marked below. -/

/-- Modelled from the spec: `auth/auth.py` is not under `src/`. §7 — the
typed failure kinds of the auth core. -/
inductive AuthErrKind where
  | AuthHeaderMissing
  | AuthHeaderMalformed
  | InvalidHeader
  | InvalidKeyId
  | InvalidSignature
  | TokenExpired
  | InvalidClaims
  | PermissionsClaimMissing
  | Unauthorized
  deriving DecidableEq, Repr

/-- Modelled from the spec: §7 — the HTTP status attached to each failure
kind (all validator failures 401; missing permissions claim 400; required
permission absent 403). -/
def AuthErrKind.status : AuthErrKind → Nat
  | .AuthHeaderMissing => 401
  | .AuthHeaderMalformed => 401
  | .InvalidHeader => 401
  | .InvalidKeyId => 401
  | .InvalidSignature => 401
  | .TokenExpired => 401
  | .InvalidClaims => 401
  | .PermissionsClaimMissing => 400
  | .Unauthorized => 403

/-- Modelled from the spec: §7 — a human description per failure kind,
carried in the structured error body. -/
def AuthErrKind.describe : AuthErrKind → String
  | .AuthHeaderMissing => "Authorization header is expected."
  | .AuthHeaderMalformed => "Authorization header must be a Bearer token."
  | .InvalidHeader => "Authorization malformed."
  | .InvalidKeyId => "Unable to find the appropriate key."
  | .InvalidSignature => "Signature verification failed."
  | .TokenExpired => "Token expired."
  | .InvalidClaims => "Incorrect claims. Please, check the audience and issuer."
  | .PermissionsClaimMissing => "Permissions not included in JWT."
  | .Unauthorized => "Permission not found."

/-- Modelled from the spec: §7 — a machine-readable code per failure kind. -/
def AuthErrKind.code : AuthErrKind → String
  | .AuthHeaderMissing => "authorization_header_missing"
  | .AuthHeaderMalformed => "invalid_header"
  | .InvalidHeader => "invalid_header"
  | .InvalidKeyId => "invalid_header"
  | .InvalidSignature => "invalid_signature"
  | .TokenExpired => "token_expired"
  | .InvalidClaims => "invalid_claims"
  | .PermissionsClaimMissing => "invalid_claims"
  | .Unauthorized => "unauthorized"

/-- The `AuthError` value a failure kind raises. -/
def AuthErrKind.toAuthError (k : AuthErrKind) : AuthError :=
  ⟨k.code, k.describe, k.status⟩

/-- Modelled from the spec: §3, §4.2 — the decoded claim set of a validated
token; `permissions` is `none` when the claim set carries no permissions
attribute at all, `some ps` (possibly `some []`) when it does. -/
structure ClaimSet where
  permissions : Option (List String)
  deriving Repr

/-- Modelled from the spec: `auth/auth.py` is not under `src/`. §4.2 — the
permission checker: fails `PermissionsClaimMissing` when the claim set has
no permissions attribute at all; fails `Unauthorized` when the attribute
exists but does not contain the required permission (exact, case-sensitive
string match — `String` equality); succeeds otherwise. -/
def check_permissions (required : String) (c : ClaimSet) :
    Except AuthErrKind Unit :=
  match c.permissions with
  | none => .error .PermissionsClaimMissing
  | some ps => if required ∈ ps then .ok () else .error .Unauthorized

/-- Modelled from the spec: §4.3 — the guard around a protected handler,
after token validation: runs the permission checker; a failure raises
`AuthError`, which `api.py`'s `@app.errorhandler(AuthError)` converts at
the boundary; success invokes the wrapped handler on the claim set. -/
def authGuard (required : String) (c : ClaimSet) (handler : ClaimSet → Response) :
    Response :=
  match check_permissions required c with
  | .error k => auth_error k.toAuthError
  | .ok _ => handler c

/- ## JSON extraction helpers (for stating properties of response bodies) -/

/-- Look a key up in a JSON object body. -/
def JVal.lookup (v : JVal) (k : String) : Option JVal :=
  match v with
  | .obj fs => fs.lookup k
  | _ => none

/-- The list under the `drinks` key of a response body. -/
def responseDrinks (r : Response) : List JVal :=
  match r.body.lookup "drinks" with
  | some (.arr xs) => xs
  | _ => []

/-- The `id` field of a drink view (both views place it first). -/
def viewId : JVal → Int
  | .obj (("id", .num n) :: _) => n
  | _ => 0

example : viewId (Drink.short ⟨3, "t", .null⟩) = 3 := rfl
example : viewId (Drink.long ⟨3, "t", .null⟩) = 3 := rfl
example : check_permissions "patch:drinks" ⟨some ["get:drinks-detail"]⟩ =
    .error .Unauthorized := rfl

/- ## Shared helper lemmas -/

/-- Both views expose the drink's id as their `id` field. -/
theorem viewId_short (d : Drink) : viewId d.short = (d.id : Int) := rfl

/-- Long view's id field. -/
theorem viewId_long (d : Drink) : viewId d.long = (d.id : Int) := rfl

/- ## Claims -/

/-- C4: for every auth failure `AuthError` raised by the guard, the HTTP
response produced by `@app.errorhandler(AuthError)` has status equal to the
error's status code, and its body is exactly the uniform JSON shape
`(success: false, error: status, message: description)` — three fields and
nothing else, so no internal exception detail crosses the boundary, and the
`error` field equals the response status. -/
theorem auth_error_uniform_body (e : AuthError) :
    (auth_error e).status = e.status_code ∧
    (auth_error e).body =
      .obj [("success", .bool false), ("error", .num e.status_code),
            ("message", .str e.description)] ∧
    (auth_error e).body.lookup "error" = some (.num ((auth_error e).status)) ∧
    (auth_error e).body.lookup "success" = some (.bool false) ∧
    (auth_error e).body.lookup "message" = some (.str e.description) :=
  ⟨rfl, rfl, rfl, rfl, rfl⟩

/-- C5: `GET /drinks` requires no authorization (it is the one route with no
`@requires_auth` decorator) and, for every store state, returns HTTP 200 with
body `(success: true, drinks: short views of every drink in the store)` —
the listed drinks are a permutation of the whole store, sorted by id. -/
theorem get_drinks_public_200_short_views (s : List Drink) :
    requiredPermission .getDrinks = none ∧
    (get_drinks s).1.status = 200 ∧
    (get_drinks s).1.body =
      .obj [("success", .bool true),
            ("drinks", .arr ((sortById s).map Drink.short))] ∧
    (sortById s).Perm s :=
  ⟨rfl, rfl, rfl, List.perm_insertionSort leById s⟩

/-- C7: `GET /drinks` is pure and idempotent with respect to the store: it
leaves the store unchanged, and a second invocation on the resulting store
returns the identical response (hence the identical drink list). -/
theorem get_drinks_idempotent_pure (s : List Drink) :
    (get_drinks s).2 = s ∧
    get_drinks ((get_drinks s).2) = get_drinks s ∧
    responseDrinks (get_drinks ((get_drinks s).2)).1 =
      responseDrinks (get_drinks s).1 :=
  ⟨rfl, rfl, rfl⟩

/-- C2: a validated token whose claim set carries no permissions attribute at
all fails the permission checker with `PermissionsClaimMissing` and HTTP 400,
and this outcome is distinct from the `Unauthorized`/403 outcome produced
when a permissions attribute exists (possibly empty) but lacks the required
permission. -/
theorem permissions_claim_missing_400_distinct (required : String)
    (c : ClaimSet) (h : c.permissions = none) :
    check_permissions required c = .error .PermissionsClaimMissing ∧
    AuthErrKind.status .PermissionsClaimMissing = 400 ∧
    (∀ (c2 : ClaimSet) (ps : List String), c2.permissions = some ps →
      required ∉ ps →
        check_permissions required c2 = .error .Unauthorized ∧
        AuthErrKind.status .Unauthorized = 403) ∧
    AuthErrKind.PermissionsClaimMissing ≠ AuthErrKind.Unauthorized ∧
    AuthErrKind.status .PermissionsClaimMissing ≠
      AuthErrKind.status .Unauthorized := by
  refine ⟨by simp [check_permissions, h], rfl, ?_, by decide, by decide⟩
  intro c2 ps h2 hn
  exact ⟨by simp [check_permissions, h2, hn], rfl⟩

/-- Witness for C2: a claim set with no permissions attribute at all yields
`PermissionsClaimMissing` (400); one with an empty permissions attribute
yields `Unauthorized` (403). -/
theorem permissions_claim_missing_400_distinct_witness :
    check_permissions "get:drinks-detail" ⟨none⟩ =
      .error .PermissionsClaimMissing ∧
    AuthErrKind.status .PermissionsClaimMissing = 400 ∧
    check_permissions "get:drinks-detail" ⟨some []⟩ = .error .Unauthorized := by
  have h := permissions_claim_missing_400_distinct "get:drinks-detail" ⟨none⟩ rfl
  exact ⟨h.1, h.2.1, (h.2.2.1 ⟨some []⟩ [] rfl (by simp)).1⟩

/-- C3: a validated token whose permissions attribute exists but does not
contain the route's required permission string (exact, case-sensitive string
equality) is rejected: the checker fails with kind `Unauthorized`, and the
guard short-circuits the wrapped handler with the HTTP 403 response. -/
theorem missing_permission_unauthorized_403 (required : String)
    (ps : List String) (handler : ClaimSet → Response) (h : required ∉ ps) :
    check_permissions required ⟨some ps⟩ = .error .Unauthorized ∧
    authGuard required ⟨some ps⟩ handler =
      auth_error (AuthErrKind.toAuthError .Unauthorized) ∧
    (authGuard required ⟨some ps⟩ handler).status = 403 ∧
    AuthErrKind.status .Unauthorized = 403 := by
  have hc : check_permissions required ⟨some ps⟩ = .error .Unauthorized := by
    simp [check_permissions, h]
  refine ⟨hc, ?_, ?_, rfl⟩
  · simp [authGuard, hc]
  · simp [authGuard, hc]; rfl

/-- Witness for C3, on the spec's scenario: a token with permissions
`["get:drinks-detail"]` hitting the `patch:drinks` guard gets 403; the match
is case-sensitive, so `"Patch:Drinks"` does not grant `patch:drinks`. -/
theorem missing_permission_unauthorized_403_witness :
    (authGuard "patch:drinks" ⟨some ["get:drinks-detail"]⟩
      (fun _ => ⟨200, .null⟩)).status = 403 ∧
    check_permissions "patch:drinks" ⟨some ["Patch:Drinks"]⟩ =
      .error .Unauthorized :=
  ⟨(missing_permission_unauthorized_403 "patch:drinks" ["get:drinks-detail"]
      (fun _ => ⟨200, .null⟩) (by decide)).2.2.1,
   (missing_permission_unauthorized_403 "patch:drinks" ["Patch:Drinks"]
      (fun _ => ⟨200, .null⟩) (by decide)).1⟩

/-- C9: every response produced by the registered error handlers of api.py
(statuses 422, 404, 401, 500, 400, 405, and `AuthError`) has a JSON body
whose `success` field is `false` and whose `error` field equals the HTTP
status code of the response. -/
theorem error_handlers_success_false_error_eq_status (e : AuthError) :
    (unprocessable.status = 422 ∧
      unprocessable.body.lookup "success" = some (.bool false) ∧
      unprocessable.body.lookup "error" = some (.num 422)) ∧
    (not_found.status = 404 ∧
      not_found.body.lookup "success" = some (.bool false) ∧
      not_found.body.lookup "error" = some (.num 404)) ∧
    (unauthorized.status = 401 ∧
      unauthorized.body.lookup "success" = some (.bool false) ∧
      unauthorized.body.lookup "error" = some (.num 401)) ∧
    (internal_server_error.status = 500 ∧
      internal_server_error.body.lookup "success" = some (.bool false) ∧
      internal_server_error.body.lookup "error" = some (.num 500)) ∧
    (bad_request.status = 400 ∧
      bad_request.body.lookup "success" = some (.bool false) ∧
      bad_request.body.lookup "error" = some (.num 400)) ∧
    (method_not_allowed.status = 405 ∧
      method_not_allowed.body.lookup "success" = some (.bool false) ∧
      method_not_allowed.body.lookup "error" = some (.num 405)) ∧
    ((auth_error e).body.lookup "success" = some (.bool false) ∧
      (auth_error e).body.lookup "error" = some (.num ((auth_error e).status))) :=
  ⟨⟨rfl, rfl, rfl⟩, ⟨rfl, rfl, rfl⟩, ⟨rfl, rfl, rfl⟩, ⟨rfl, rfl, rfl⟩,
   ⟨rfl, rfl, rfl⟩, ⟨rfl, rfl, rfl⟩, rfl, rfl⟩

/-- C6: `DELETE /drinks/<id>` behind the `delete:drinks` guard: 404 when no
drink has the id (store untouched); 400 when the store's delete fails (store
untouched); otherwise the drink is removed and the response is 200 with body
`(success: true, delete: id)`. -/
theorem delete_drink_spec (ok : Bool) (s : List Drink) (i : Nat) :
    ((∀ d ∈ s, d.id ≠ i) → delete_drink ok s i = (not_found, s)) ∧
    ((∃ d ∈ s, d.id = i) → ok = false →
      delete_drink ok s i = (bad_request, s)) ∧
    ((∃ d ∈ s, d.id = i) → ok = true →
      delete_drink ok s i =
        (⟨200, .obj [("success", .bool true), ("delete", .num i)]⟩,
         s.filter (fun d => !(d.id == i)))) := by
  have hfind : (∃ d ∈ s, d.id = i) →
      ∃ x, s.find? (fun d => d.id == i) = some x := by
    rintro ⟨d, hd, hdi⟩
    have hsome : (s.find? (fun d => d.id == i)).isSome := by
      rw [List.find?_isSome]
      exact ⟨d, hd, by simp [hdi]⟩
    exact Option.isSome_iff_exists.mp hsome
  refine ⟨?_, ?_, ?_⟩
  · intro h
    have hn : s.find? (fun d => d.id == i) = none := by
      rw [List.find?_eq_none]
      intro d hd
      simp [h d hd]
    simp [delete_drink, hn]
  · intro hex hok
    obtain ⟨x, hx⟩ := hfind hex
    simp [delete_drink, hx, hok]
  · intro hex hok
    obtain ⟨x, hx⟩ := hfind hex
    simp [delete_drink, hx, hok]

/-- Witness for C6 (including the spec's `DELETE /drinks/999` scenario):
unknown id gives 404 and leaves the store as it was; a failing store delete
gives 400; a successful delete removes the row and answers
`(success: true, delete: 1)` with 200. -/
theorem delete_drink_spec_witness :
    delete_drink true [⟨1, "water", .null⟩] 999 =
      (not_found, [⟨1, "water", .null⟩]) ∧
    delete_drink false [⟨1, "water", .null⟩] 1 =
      (bad_request, [⟨1, "water", .null⟩]) ∧
    delete_drink true [⟨1, "water", .null⟩] 1 =
      (⟨200, .obj [("success", .bool true), ("delete", .num 1)]⟩, []) := by
  refine ⟨(delete_drink_spec true [⟨1, "water", .null⟩] 999).1 ?_,
          (delete_drink_spec false [⟨1, "water", .null⟩] 1).2.1
            ⟨⟨1, "water", .null⟩, by simp, rfl⟩ rfl,
          (delete_drink_spec true [⟨1, "water", .null⟩] 1).2.2
            ⟨⟨1, "water", .null⟩, by simp, rfl⟩ rfl⟩
  rintro d hd
  rw [List.mem_singleton] at hd
  subst hd
  decide

/-- C10: `PATCH /drinks/<id>` and `DELETE /drinks/<id>` are atomic on the
unknown-id path: when no drink in the store has the id, both abort with the
404 response before performing any mutation, returning the store exactly as
it was. -/
theorem unknown_id_404_leaves_store_unchanged (ok : Bool) (s : List Drink)
    (i : Nat) (b : PatchBody) (h : ∀ d ∈ s, d.id ≠ i) :
    update_drink ok s i b = (not_found, s) ∧
    delete_drink ok s i = (not_found, s) ∧
    not_found.status = 404 := by
  have hn : s.find? (fun d => d.id == i) = none := by
    rw [List.find?_eq_none]
    intro d hd
    simp [h d hd]
  exact ⟨by simp [update_drink, hn], by simp [delete_drink, hn], rfl⟩

/-- Witness for C10: id 2 names no drink in a one-drink store; both PATCH
and DELETE answer 404 and return the store unchanged. -/
theorem unknown_id_404_leaves_store_unchanged_witness :
    update_drink true [⟨1, "water", .null⟩] 2 ⟨some "tea", none⟩ =
      (not_found, [⟨1, "water", .null⟩]) ∧
    delete_drink true [⟨1, "water", .null⟩] 2 =
      (not_found, [⟨1, "water", .null⟩]) := by
  have h := unknown_id_404_leaves_store_unchanged true [⟨1, "water", .null⟩] 2
    ⟨some "tea", none⟩ ?_
  · exact ⟨h.1, h.2.1⟩
  · rintro d hd
    rw [List.mem_singleton] at hd
    subst hd
    decide

/-- C8: for every store state, both `GET /drinks` and `GET /drinks-detail`
list the drinks in ascending order of their id (the `order_by(Drink.id)`
query): the ids read off the returned views are sorted. -/
theorem drinks_listed_in_ascending_id_order (s : List Drink) :
    List.Sorted (· ≤ ·) ((responseDrinks (get_drinks s).1).map viewId) ∧
    List.Sorted (· ≤ ·) ((responseDrinks (get_drink_detail s).1).map viewId) := by
  have hs : List.Pairwise leById (sortById s) :=
    List.sorted_insertionSort leById s
  have key : ∀ f : Drink → JVal, (∀ d, viewId (f d) = (d.id : Int)) →
      List.Sorted (· ≤ ·) (((sortById s).map f).map viewId) := by
    intro f hf
    rw [List.map_map, List.Sorted, List.pairwise_map]
    refine hs.imp ?_
    intro a b hab
    simp only [Function.comp, hf]
    exact_mod_cast hab
  have h1 : responseDrinks (get_drinks s).1 = (sortById s).map Drink.short := rfl
  have h2 : responseDrinks (get_drink_detail s).1 =
      (sortById s).map Drink.long := rfl
  rw [h1, h2]
  exact ⟨key Drink.short viewId_short, key Drink.long viewId_long⟩

/-- C1 fails on the code: evaluation of `update_drink` at a store holding
drink 1 (`"Latte"` with a one-ingredient recipe) and a PATCH body that
carries `title: "Mocha"` but omits the `recipe` key. The response is 200,
but the stored recipe is overwritten with JSON `null` (the column receives
the text `"null"`): `json.dumps` is applied before the `if new_recipe:`
truthiness test, and `json.dumps(None) = "null"` is a non-empty, truthy
string, so the guard meant to detect an omitted key always fires. The final
conjunct records that the new stored recipe differs from the original one,
refuting "the stored drink's recipe field is unchanged". -/
theorem patch_omitting_recipe_key_overwrites_stored_recipe :
    (update_drink true
        [⟨1, "Latte",
          .arr [.obj [("name", .str "milk"), ("color", .str "white"),
                      ("parts", .num 1)]]⟩]
        1 ⟨some "Mocha", none⟩).1.status = 200 ∧
    (update_drink true
        [⟨1, "Latte",
          .arr [.obj [("name", .str "milk"), ("color", .str "white"),
                      ("parts", .num 1)]]⟩]
        1 ⟨some "Mocha", none⟩).2 = [⟨1, "Mocha", .null⟩] ∧
    dumps (JVal.null) = "null" ∧
    (⟨1, "Mocha", .null⟩ : Drink).recipe ≠
      (⟨1, "Latte",
        .arr [.obj [("name", .str "milk"), ("color", .str "white"),
                    ("parts", .num 1)]]⟩ : Drink).recipe :=
  ⟨rfl, rfl, rfl, fun h => JVal.noConfusion h⟩
